import Mathlib

/-!
# Verification of the indicar Landsat geoprocessing pipeline

A shallow embedding of `indicar/process.py` (functions `get_image_bounds`,
`get_intersection_bounds`, `Process.make_ndvi`, `Process.change_detection`)
together with proofs about the embedded definitions.

Numeric samples, geotransform coefficients and thresholds are modelled as
rationals (`ℚ`); the Python code computes with IEEE floats, and the spec's
numeric policies (thresholds 0.1 and -0.08, the NDVI formula) are stated at
the level of exact arithmetic.  Raster files opened by `gdal.Open` are
modelled as in-memory values; `gdal.Open` returning `None` for an unreadable
file is modelled by passing `Option` values to the entry points.
-/

/-- A GDAL geotransform, the six coefficients returned by `GetGeoTransform`:
`g0` = originX, `g1` = pixel width, `g2` = x rotation term,
`g3` = originY, `g4` = y rotation term, `g5` = pixel height. -/
structure GeoTransform where
  g0 : ℚ
  g1 : ℚ
  g2 : ℚ
  g3 : ℚ
  g4 : ℚ
  g5 : ℚ
deriving DecidableEq, Repr

/-- The header data of a raster file that `get_image_bounds` reads:
`RasterXSize`, `RasterYSize` and the geotransform. -/
structure Raster where
  width : ℕ
  height : ℕ
  gt : GeoTransform
deriving DecidableEq, Repr

/-- Embedding of `get_image_bounds` (process.py:41).  Returns
`((minx, miny), (maxx, maxy))` exactly as the source computes them from the
geotransform and the raster dimensions. -/
def get_image_bounds (r : Raster) : (ℚ × ℚ) × (ℚ × ℚ) :=
  let gt := r.gt
  let width : ℚ := r.width
  let height : ℚ := r.height
  let minx := gt.g0
  let miny := gt.g3 + width * gt.g4 + height * gt.g5
  let maxx := gt.g0 + width * gt.g1 + height * gt.g2
  let maxy := gt.g3
  ((minx, miny), (maxx, maxy))

/-- Python's `list.sort()` on the two-element lists built by
`get_intersection_bounds`: ascending order. -/
def sortPair (a b : ℚ) : List ℚ :=
  if a ≤ b then [a, b] else [b, a]

/-- Embedding of `get_intersection_bounds` (process.py:56).  Builds the
two-element lists of the source, sorts each, and picks index 1 of the mins
and index 0 of the maxes, returning the flat list
`[minx, miny, maxx, maxy]` of the intersection. -/
def get_intersection_bounds (image1 image2 : Raster) : List ℚ :=
  let img1_bounds := get_image_bounds image1
  let img2_bounds := get_image_bounds image2
  let minx := sortPair img1_bounds.1.1 img2_bounds.1.1
  let miny := sortPair img1_bounds.1.2 img2_bounds.1.2
  let maxx := sortPair img1_bounds.2.1 img2_bounds.2.1
  let maxy := sortPair img1_bounds.2.2 img2_bounds.2.2
  [minx.getD 1 0, miny.getD 1 0, maxx.getD 0 0, maxy.getD 0 0]

/-- The `bqa_values` list of `make_ndvi` (process.py:166): the BQA codes that
mark a pixel as cloud/cirrus-contaminated.  The Python code compares the
float-unpacked BQA sample against this list with `in`, i.e. numeric
equality, so the list is embedded at the sample type. -/
def bqa_values : List ℚ :=
  [61440, 59424, 57344, 56320, 53248, 52256, 52224,
   49184, 49152, 48128, 45056, 43040, 39936, 36896, 36864, 32768,
   31744, 28672]

/-- The per-pixel body of the `make_ndvi` scanline loop (process.py:194-206)
for an in-range pixel: BQA masking first, then the B6 validity gate, then
the guarded normalized difference `(nir - red) / (nir + red)`. -/
def ndviPixel (red nir b6v bqav : ℚ) : ℚ :=
  if bqav ∈ bqa_values then 0
  else if b6v < 1/10 then 0
  else
    let ndvi_lower := nir + red
    let ndvi_upper := nir - red
    if ndvi_lower = 0 then 0 else ndvi_upper / ndvi_lower

/-- How the Python interpreter, not the program, would abort the `make_ndvi`
loop: `indexError` models an out-of-range tuple subscript; `readFailure`
models `ReadRaster` failing for a missing scanline (its `None` result makes
`struct.unpack` raise).  `gridMismatch` stands for the spec's
`GridMismatchError`: no code path of the embedding produces it. -/
inductive PyError where
  | indexError
  | readFailure
  | gridMismatch
deriving DecidableEq, Repr

/-- A single-band raster dataset as `make_ndvi` consumes it: the declared
`RasterXSize`/`RasterYSize`, the geotransform and projection reported by
GDAL, and the pixel rows.  A scanline read returns the row stored in
`data`; nothing forces `data` to match the declared sizes, just as the
source never checks that its four inputs share a grid. -/
structure Band where
  xsize : ℕ
  ysize : ℕ
  gt : GeoTransform
  proj : String
  data : List (List ℚ)
deriving DecidableEq, Repr

/-- The output dataset `make_ndvi` creates: sized from `b4`, carrying `b4`'s
geotransform and projection, one float row written per scanline. -/
structure IndexRaster where
  xsize : ℕ
  ysize : ℕ
  gt : GeoTransform
  proj : String
  data : List (List ℚ)
deriving DecidableEq, Repr

/-- Model of `band.ReadRaster(0, line, XSize, 1, ...)` followed by
`struct.unpack`: yields the band's row `line`, or fails when the band has no
such row. -/
def scanline (b : Band) (line : ℕ) : Except PyError (List ℚ) :=
  match b.data.get? line with
  | some row => .ok row
  | none => .error .readFailure

/-- A Python tuple subscript `t[i]`: `IndexError` when out of range. -/
def subscript (t : List ℚ) (i : ℕ) : Except PyError ℚ :=
  match t.get? i with
  | some v => .ok v
  | none => .error .indexError

/-- One iteration of the inner pixel loop of `make_ndvi` (process.py:194-208),
with the tuple subscripts performed in source order and only on the branches
that reach them (the `elif` short-circuits). -/
def pixelStep (red_tuple nir_tuple b6_tuple bqa_tuple : List ℚ) (i : ℕ) :
    Except PyError ℚ := do
  let q ← subscript bqa_tuple i
  if q ∈ bqa_values then
    pure 0
  else do
    let s ← subscript b6_tuple i
    if s < 1/10 then
      pure 0
    else do
      let n ← subscript nir_tuple i
      let r ← subscript red_tuple i
      let ndvi_lower := n + r
      let ndvi_upper := n - r
      if ndvi_lower = 0 then pure 0 else pure (ndvi_upper / ndvi_lower)

/-- One iteration of the scanline loop of `make_ndvi` (process.py:176-213):
read the four scanlines, then run the pixel loop over the indices of the red
tuple, producing the float row written to the output. -/
def processLine (red nir b6 bqa : Band) (line : ℕ) : Except PyError (List ℚ) := do
  let red_tuple ← scanline red line
  let nir_tuple ← scanline nir line
  let b6_tuple ← scanline b6 line
  let bqa_tuple ← scanline bqa line
  (List.range red_tuple.length).mapM (pixelStep red_tuple nir_tuple b6_tuple bqa_tuple)

/-- The body of `make_ndvi` once all four datasets opened (process.py:160-215):
create the output from `b4`'s sizes, geotransform and projection, then write
one processed row per line of `b4`.  No grid-dimension comparison is made
anywhere. -/
def makeNdviCore (b4 b5 b6 bqa : Band) : Except PyError IndexRaster := do
  let rows ← (List.range b4.ysize).mapM (processLine b4 b5 b6 bqa)
  pure { xsize := b4.xsize, ysize := b4.ysize, gt := b4.gt, proj := b4.proj,
         data := rows }

/-- Embedding of `Process.make_ndvi` (process.py:145).  Each argument is the
result of `gdal.Open` on the corresponding TOA/BQA file, `none` when the
dataset could not be opened.  If any is `none` the method only prints and
returns: no output raster is created and nothing is raised, modelled as
`.ok none`. -/
def make_ndvi (b4 b5 b6 bqa : Option Band) : Except PyError (Option IndexRaster) :=
  match b4, b5, b6, bqa with
  | some b4, some b5, some b6, some bqa => (makeNdviCore b4 b5 b6 bqa).map some
  | _, _, _, _ => .ok none

/-- Modelled from the spec: `mask_image` is defined in `gdal_operations`,
a module of this repository that is not among the sources at hand; only its
call site `mask_image(changes, -0.08, changes_mask)` is.  Per the spec's
thresholding contract, the mask pixel "is 1 if the delta is less than
`threshold` ... and 0 otherwise". -/
def mask_pixel (delta threshold : ℚ) : ℚ :=
  if delta < threshold then 1 else 0

/-- The files `change_detection` reads and writes, named after the path
variables of process.py:229-244. -/
inductive FileRef where
  | ndvi
  | last_ndvi
  | ndvi_warp
  | last_ndvi_warp
  | changes
  | changes_mask
  | sieve
  | detection_shp
  | detection_geojson
deriving DecidableEq, Repr

/-- The raster/vector operations `change_detection` dispatches, in the order
it dispatches them; each records its sources, its numeric parameters and its
destination. -/
inductive Op where
  | warp (src : FileRef) (bounds : List ℚ) (dst : FileRef)
  | subtract (a b dst : FileRef)
  | mask (src : FileRef) (threshold : ℚ) (dst : FileRef)
  | sieve (st : ℕ) (src dst : FileRef)
  | polygonize (src dst : FileRef)
  | ogr2ogr (dst src : FileRef)
deriving DecidableEq, Repr

/-- Whether an operation is a resampling (warp) step. -/
def Op.isWarp : Op → Bool
  | .warp _ _ _ => true
  | _ => false

/-- The outcome of `change_detection`: either the skipped branch that only
prints "Change detection was not executed ...", or the completed branch with
the list of operations it dispatched. -/
inductive CDResult where
  | skipped
  | completed (ops : List Op)
deriving DecidableEq, Repr

/-- The operations dispatched by a `change_detection` outcome. -/
def CDResult.ops : CDResult → List Op
  | .skipped => []
  | .completed l => l

/-- Embedding of `Process.change_detection` (process.py:217).  The arguments
are the current and prior NDVI files, `none` when `os.path.isfile` is false
for the corresponding path.  The source compares the two image bounds for
inequality; on inequality it warps both onto the intersection bounds and
subtracts the warped files, otherwise it subtracts the originals; either way
it then masks at -0.08, sieves at 33 pixels, polygonizes, and converts the
shapefile filtering class 1.  No overlap or degeneracy check is made on the
intersection bounds, and no error is raised on this path. -/
def change_detection : Option Raster → Option Raster → CDResult
  | some cur, some last =>
    let diffOps :=
      if get_image_bounds cur ≠ get_image_bounds last then
        let bounds := get_intersection_bounds cur last
        [Op.warp .ndvi bounds .ndvi_warp,
         Op.warp .last_ndvi bounds .last_ndvi_warp,
         Op.subtract .ndvi_warp .last_ndvi_warp .changes]
      else
        [Op.subtract .ndvi .last_ndvi .changes]
    .completed (diffOps ++
      [Op.mask .changes (-(8/100)) .changes_mask,
       Op.sieve 33 .changes_mask .sieve,
       Op.polygonize .sieve .detection_shp,
       Op.ogr2ogr .detection_geojson .detection_shp])
  | _, _ => .skipped

/-- The fixed tail of operations `change_detection` dispatches after
differencing, whichever alignment branch was taken (process.py:255-264). -/
def tailOps : List Op :=
  [Op.mask .changes (-(8/100)) .changes_mask,
   Op.sieve 33 .changes_mask .sieve,
   Op.polygonize .sieve .detection_shp,
   Op.ogr2ogr .detection_geojson .detection_shp]

/-- A typical Landsat-like raster header used to instantiate theorems. -/
def sampleRaster : Raster :=
  ⟨100, 80, ⟨300000, 30, 0, 7500000, 0, -30⟩⟩

/-- A raster with the same grid shape as `sampleRaster` but a shifted origin,
so its bounds differ from `sampleRaster`'s. -/
def sampleRasterShifted : Raster :=
  ⟨100, 80, ⟨300600, 30, 0, 7500300, 0, -30⟩⟩

/-- A raster whose extent is the square [0,10] × [0,10]. -/
def disjointA : Raster := ⟨10, 10, ⟨0, 1, 0, 10, 0, -1⟩⟩

/-- A raster whose extent is the square [100,110] × [100,110]: it shares no
geographic overlap with `disjointA`. -/
def disjointB : Raster := ⟨10, 10, ⟨100, 1, 0, 110, 0, -1⟩⟩

/-- The geotransform shared by the concrete mismatched-grid bands. -/
def mmGT : GeoTransform := ⟨0, 1, 0, 1, 0, -1⟩

/-- A 1×1 red (B4) TOA band with the single sample 2. -/
def mmB4 : Band := ⟨1, 1, mmGT, "p4", [[2]]⟩

/-- A 2-column, 1-row NIR (B5) TOA band: its width differs from `mmB4`'s. -/
def mmB5 : Band := ⟨2, 1, ⟨5, 1, 0, 1, 0, -1⟩, "p5", [[3, 5]]⟩

/-- A 1×1 B6 TOA band passing the 0.1 validity gate. -/
def mmB6 : Band := ⟨1, 1, mmGT, "p6", [[1]]⟩

/-- A 1×1 BQA band whose code 0 is not in `bqa_values`. -/
def mmBqa : Band := ⟨1, 1, mmGT, "pq", [[0]]⟩

/-- The raster `make_ndvi` produces from the mismatched bands above:
one pixel, (3 − 2) / (3 + 2) = 1/5, with `mmB4`'s metadata. -/
def mmOut : IndexRaster := ⟨1, 1, mmGT, "p4", [[1/5]]⟩

lemma sortPair_getD_one (a b : ℚ) : (sortPair a b).getD 1 0 = max a b := by
  by_cases h : a ≤ b
  · simp [sortPair, h, max_eq_right h]
  · simp [sortPair, h, max_eq_left (le_of_not_le h)]

lemma sortPair_getD_zero (a b : ℚ) : (sortPair a b).getD 0 0 = min a b := by
  by_cases h : a ≤ b
  · simp [sortPair, h, min_eq_left h]
  · simp [sortPair, h, min_eq_right (le_of_not_le h)]

/-- C7: for every raster with geotransform
(originX, pixelW, rotX, originY, rotY, pixelH), width w and height h,
`get_image_bounds` returns minX = originX, maxY = originY,
maxX = originX + w·pixelW + h·rotX and minY = originY + w·rotY + h·pixelH. -/
theorem get_image_bounds_formula (r : Raster) :
    (get_image_bounds r).1.1 = r.gt.g0 ∧
    (get_image_bounds r).2.2 = r.gt.g3 ∧
    (get_image_bounds r).2.1 =
      r.gt.g0 + (r.width : ℚ) * r.gt.g1 + (r.height : ℚ) * r.gt.g2 ∧
    (get_image_bounds r).1.2 =
      r.gt.g3 + (r.width : ℚ) * r.gt.g4 + (r.height : ℚ) * r.gt.g5 :=
  ⟨rfl, rfl, rfl, rfl⟩

/-- C9: `get_intersection_bounds` is commutative, and each component is the
componentwise max of the two mins and min of the two maxes. -/
theorem get_intersection_bounds_comm (A B : Raster) :
    get_intersection_bounds A B = get_intersection_bounds B A ∧
    get_intersection_bounds A B =
      [max (get_image_bounds A).1.1 (get_image_bounds B).1.1,
       max (get_image_bounds A).1.2 (get_image_bounds B).1.2,
       min (get_image_bounds A).2.1 (get_image_bounds B).2.1,
       min (get_image_bounds A).2.2 (get_image_bounds B).2.2] := by
  constructor
  · simp only [get_intersection_bounds, sortPair_getD_one, sortPair_getD_zero]
    rw [max_comm, min_comm, max_comm (get_image_bounds A).1.2,
      min_comm (get_image_bounds A).2.2]
  · simp only [get_intersection_bounds, sortPair_getD_one, sortPair_getD_zero]

/-- C1: the per-pixel policy order of `make_ndvi`: a BQA code in the invalid
set forces 0; otherwise a B6 value below 0.1 forces 0; otherwise, with
numerator nir − red and denominator nir + red (bandA = B5/NIR,
bandB = B4/red), a zero denominator gives 0 and any other pixel gives
numerator / denominator. -/
theorem ndviPixel_policy (red nir b6v bqav : ℚ) :
    (bqav ∈ bqa_values → ndviPixel red nir b6v bqav = 0) ∧
    (bqav ∉ bqa_values → b6v < 1/10 → ndviPixel red nir b6v bqav = 0) ∧
    (bqav ∉ bqa_values → ¬ b6v < 1/10 → nir + red = 0 →
      ndviPixel red nir b6v bqav = 0) ∧
    (bqav ∉ bqa_values → ¬ b6v < 1/10 → nir + red ≠ 0 →
      ndviPixel red nir b6v bqav = (nir - red) / (nir + red)) := by
  refine ⟨fun h1 => ?_, fun h1 h2 => ?_, fun h1 h2 h3 => ?_, fun h1 h2 h3 => ?_⟩
  · unfold ndviPixel
    rw [if_pos h1]
  · unfold ndviPixel
    rw [if_neg h1, if_pos h2]
  · unfold ndviPixel
    rw [if_neg h1, if_neg h2]
    show (if nir + red = 0 then (0:ℚ) else (nir - red) / (nir + red)) = 0
    rw [if_pos h3]
  · unfold ndviPixel
    rw [if_neg h1, if_neg h2]
    show (if nir + red = 0 then (0:ℚ) else (nir - red) / (nir + red)) =
      (nir - red) / (nir + red)
    rw [if_neg h3]

/-- Witness for C1: each of the four policy branches at a concrete pixel. -/
theorem ndviPixel_policy_witness :
    ndviPixel 1 3 1 28672 = 0 ∧
    ndviPixel 1 3 (1/20) 0 = 0 ∧
    ndviPixel (-3) 3 1 0 = 0 ∧
    ndviPixel 1 3 1 0 = (3 - 1) / (3 + 1) :=
  ⟨(ndviPixel_policy 1 3 1 28672).1 (by decide),
   (ndviPixel_policy 1 3 (1/20) 0).2.1 (by decide) (by norm_num),
   (ndviPixel_policy (-3) 3 1 0).2.2.1 (by decide) (by norm_num) (by norm_num),
   (ndviPixel_policy 1 3 1 0).2.2.2 (by decide) (by norm_num) (by norm_num)⟩

/-- C8: whenever the two ratio bands are non-negative, the NDVI sample lies
in [-1, 1]; the masked branches output 0, which also lies in [-1, 1]. -/
theorem ndviPixel_bounded (red nir b6v bqav : ℚ)
    (hr : 0 ≤ red) (hn : 0 ≤ nir) :
    -1 ≤ ndviPixel red nir b6v bqav ∧ ndviPixel red nir b6v bqav ≤ 1 := by
  by_cases h1 : bqav ∈ bqa_values
  · unfold ndviPixel
    rw [if_pos h1]
    norm_num
  by_cases h2 : b6v < 1/10
  · unfold ndviPixel
    rw [if_neg h1, if_pos h2]
    norm_num
  have hval : ndviPixel red nir b6v bqav =
      if nir + red = 0 then (0:ℚ) else (nir - red) / (nir + red) := by
    unfold ndviPixel
    rw [if_neg h1, if_neg h2]
  by_cases h3 : nir + red = 0
  · rw [hval, if_pos h3]
    norm_num
  · have hpos : 0 < nir + red := lt_of_le_of_ne (by linarith) (Ne.symm h3)
    rw [hval, if_neg h3]
    constructor
    · rw [le_div_iff₀ hpos]; linarith
    · rw [div_le_one hpos]; linarith

/-- Witness for C8 at the concrete pixel red = 1, nir = 3. -/
theorem ndviPixel_bounded_witness :
    (0:ℚ) ≤ 1 ∧ (0:ℚ) ≤ 3 ∧
    (-1 ≤ ndviPixel 1 3 1 0 ∧ ndviPixel 1 3 1 0 ≤ 1) :=
  ⟨by norm_num, by norm_num, ndviPixel_bounded 1 3 1 0 (by norm_num) (by norm_num)⟩

/-- C2: when either NDVI file is absent, `change_detection` takes the skipped
branch: it returns the `skipped` outcome — a sentinel, not an error, the
embedding of this branch having no failure case at all because the source
only prints there — and dispatches no alignment, differencing, thresholding
or vectorization operation. -/
theorem change_detection_skips (ndvi last_ndvi : Option Raster)
    (h : ndvi = none ∨ last_ndvi = none) :
    change_detection ndvi last_ndvi = .skipped ∧
    (change_detection ndvi last_ndvi).ops = [] := by
  rcases h with h | h
  · subst h
    cases last_ndvi <;> exact ⟨rfl, rfl⟩
  · subst h
    cases ndvi <;> exact ⟨rfl, rfl⟩

/-- Witness for C2: the prior NDVI file is missing. -/
theorem change_detection_skips_witness :
    change_detection (some sampleRaster) none = .skipped ∧
    (change_detection (some sampleRaster) none).ops = [] :=
  change_detection_skips (some sampleRaster) none (Or.inr rfl)

/-- C3: with both files present, equal bounds (exact equality of all four
corner coordinates) mean the subtraction runs directly on the original NDVI
files with no warp dispatched, while unequal bounds mean both inputs are
warped onto the intersection bounds and the warped files are subtracted. -/
theorem change_detection_alignment (A B : Raster) :
    (get_image_bounds A = get_image_bounds B →
      change_detection (some A) (some B) =
        .completed ([Op.subtract .ndvi .last_ndvi .changes] ++ tailOps) ∧
      ∀ op ∈ (change_detection (some A) (some B)).ops, op.isWarp = false) ∧
    (get_image_bounds A ≠ get_image_bounds B →
      change_detection (some A) (some B) =
        .completed
          ([Op.warp .ndvi (get_intersection_bounds A B) .ndvi_warp,
            Op.warp .last_ndvi (get_intersection_bounds A B) .last_ndvi_warp,
            Op.subtract .ndvi_warp .last_ndvi_warp .changes] ++ tailOps)) := by
  constructor
  · intro h
    have heq : change_detection (some A) (some B) =
        .completed ([Op.subtract .ndvi .last_ndvi .changes] ++ tailOps) := by
      simp only [change_detection]
      rw [if_neg (not_not_intro h)]
      rfl
    refine ⟨heq, ?_⟩
    rw [heq]
    decide
  · intro h
    simp only [change_detection]
    rw [if_pos h]
    rfl

/-- Witness for C3: both branches at concrete rasters — identical rasters
for the equal-bounds branch, a shifted origin for the unequal branch. -/
theorem change_detection_alignment_witness :
    (change_detection (some sampleRaster) (some sampleRaster) =
      .completed ([Op.subtract .ndvi .last_ndvi .changes] ++ tailOps)) ∧
    change_detection (some sampleRaster) (some sampleRasterShifted) =
      .completed
        ([Op.warp .ndvi (get_intersection_bounds sampleRaster sampleRasterShifted)
            .ndvi_warp,
          Op.warp .last_ndvi
            (get_intersection_bounds sampleRaster sampleRasterShifted)
            .last_ndvi_warp,
          Op.subtract .ndvi_warp .last_ndvi_warp .changes] ++ tailOps) :=
  ⟨((change_detection_alignment sampleRaster sampleRaster).1 rfl).1,
   (change_detection_alignment sampleRaster sampleRasterShifted).2 (by decide)⟩

/-- C4: the spec-modelled mask pixel at the policy threshold -0.08 is 1
exactly when the delta is strictly below -0.08 and 0 otherwise; -0.09 is
flagged, -0.07 is not, +0.5 is not, and no positive delta is ever flagged;
`change_detection` always dispatches the mask step with threshold -0.08. -/
theorem mask_pixel_threshold :
    (∀ delta : ℚ,
      (mask_pixel delta (-(8/100)) = 1 ↔ delta < -(8/100)) ∧
      (mask_pixel delta (-(8/100)) = 0 ↔ ¬ delta < -(8/100)) ∧
      (0 < delta → mask_pixel delta (-(8/100)) = 0)) ∧
    mask_pixel (-(9/100)) (-(8/100)) = 1 ∧
    mask_pixel (-(7/100)) (-(8/100)) = 0 ∧
    mask_pixel (1/2) (-(8/100)) = 0 ∧
    ∀ A B : Raster,
      Op.mask .changes (-(8/100)) .changes_mask ∈
        (change_detection (some A) (some B)).ops := by
  refine ⟨fun delta => ⟨?_, ?_, ?_⟩, by norm_num [mask_pixel],
    by norm_num [mask_pixel], by norm_num [mask_pixel], fun A B => ?_⟩
  · by_cases h : delta < -(8/100)
    · simp [mask_pixel, h]
    · simp [mask_pixel, h]
  · by_cases h : delta < -(8/100)
    · simp [mask_pixel, h]
    · simp [mask_pixel, h]
  · intro h
    have hnot : ¬ delta < -(8/100) := by linarith
    simp [mask_pixel, hnot]
  · simp only [change_detection]
    by_cases h : get_image_bounds A = get_image_bounds B
    · rw [if_neg (not_not_intro h)]
      simp [CDResult.ops]
    · rw [if_pos h]
      simp [CDResult.ops]

/-- Witness for C4: a positive delta is not flagged. -/
theorem mask_pixel_threshold_witness :
    (0:ℚ) < 1/2 ∧ mask_pixel (1/2) (-(8/100)) = 0 :=
  ⟨by norm_num, (mask_pixel_threshold.1 (1/2)).2.2 (by norm_num)⟩

lemma disjoint_intersection_eval :
    get_intersection_bounds disjointA disjointB = [100, 100, 10, 10] := by
  norm_num [get_intersection_bounds, get_image_bounds, sortPair,
    disjointA, disjointB]

/-- C6 counterexample: two present NDVI rasters with no geographic overlap —
their intersection bounds [100, 100, 10, 10] are degenerate, minX = 100 being
at least maxX = 10 — yet `change_detection` does not fail with a
disjoint-extent error: it proceeds, warping both inputs onto the degenerate
extent and dispatching the full downstream chain. -/
theorem change_detection_disjoint_counterexample :
    get_image_bounds disjointA ≠ get_image_bounds disjointB ∧
    get_intersection_bounds disjointA disjointB = [100, 100, 10, 10] ∧
    (get_intersection_bounds disjointA disjointB).getD 2 0 ≤
      (get_intersection_bounds disjointA disjointB).getD 0 0 ∧
    change_detection (some disjointA) (some disjointB) =
      .completed
        ([Op.warp .ndvi [100, 100, 10, 10] .ndvi_warp,
          Op.warp .last_ndvi [100, 100, 10, 10] .last_ndvi_warp,
          Op.subtract .ndvi_warp .last_ndvi_warp .changes] ++ tailOps) := by
  refine ⟨by decide, disjoint_intersection_eval, ?_, ?_⟩
  · rw [disjoint_intersection_eval]
    norm_num
  · simp only [change_detection]
    rw [if_pos (by decide), disjoint_intersection_eval]
    rfl

/-- C6 as the code has it: when the bounds differ, `change_detection`
proceeds even if the intersection is degenerate (minX ≥ maxX or minY ≥ maxY,
i.e. no usable overlap): it warps both inputs onto the degenerate
intersection extent and continues with differencing, thresholding and
vectorization; no disjoint-extent failure exists on this path. -/
theorem change_detection_degenerate_proceeds (A B : Raster)
    (hne : get_image_bounds A ≠ get_image_bounds B)
    (_hdeg : (get_intersection_bounds A B).getD 2 0 ≤
        (get_intersection_bounds A B).getD 0 0 ∨
      (get_intersection_bounds A B).getD 3 0 ≤
        (get_intersection_bounds A B).getD 1 0) :
    change_detection (some A) (some B) =
      .completed
        ([Op.warp .ndvi (get_intersection_bounds A B) .ndvi_warp,
          Op.warp .last_ndvi (get_intersection_bounds A B) .last_ndvi_warp,
          Op.subtract .ndvi_warp .last_ndvi_warp .changes] ++ tailOps) := by
  simp only [change_detection]
  rw [if_pos hne]
  rfl

/-- Witness for the amended C6 at the concrete disjoint pair. -/
theorem change_detection_degenerate_proceeds_witness :
    change_detection (some disjointA) (some disjointB) =
      .completed
        ([Op.warp .ndvi (get_intersection_bounds disjointA disjointB) .ndvi_warp,
          Op.warp .last_ndvi (get_intersection_bounds disjointA disjointB)
            .last_ndvi_warp,
          Op.subtract .ndvi_warp .last_ndvi_warp .changes] ++ tailOps) :=
  change_detection_degenerate_proceeds disjointA disjointB (by decide)
    (Or.inl (by rw [disjoint_intersection_eval]; norm_num))

lemma subscript_no_gridMismatch (t : List ℚ) (i : ℕ) :
    subscript t i ≠ .error .gridMismatch := by
  unfold subscript
  cases t.get? i <;> simp

lemma scanline_no_gridMismatch (b : Band) (line : ℕ) :
    scanline b line ≠ .error .gridMismatch := by
  unfold scanline
  cases b.data.get? line <;> simp

lemma except_ok_bind {α β : Type} (a : α) (f : α → Except PyError β) :
    (Except.ok a >>= f) = f a := rfl

lemma except_error_bind {α β : Type} (e : PyError) (f : α → Except PyError β) :
    ((Except.error e : Except PyError α) >>= f) = Except.error e := rfl

lemma except_pure_eq_ok {α : Type} (a : α) :
    (pure a : Except PyError α) = Except.ok a := rfl

lemma bind_no_gridMismatch {α β : Type} (x : Except PyError α)
    (f : α → Except PyError β)
    (hx : x ≠ .error .gridMismatch)
    (hf : ∀ a, f a ≠ .error .gridMismatch) :
    (x >>= f) ≠ .error .gridMismatch := by
  cases x with
  | error e =>
    rw [except_error_bind]
    intro hc
    exact hx (by rw [Except.error.inj hc])
  | ok a => rw [except_ok_bind]; exact hf a

lemma ite_pure_no_gridMismatch (c : Prop) [Decidable c] (x y : ℚ) :
    (if c then (pure x : Except PyError ℚ) else pure y) ≠
      .error .gridMismatch := by
  by_cases h : c
  · rw [if_pos h]; exact fun hc => Except.noConfusion hc
  · rw [if_neg h]; exact fun hc => Except.noConfusion hc

lemma mapM_no_gridMismatch {α β : Type} (f : α → Except PyError β)
    (hf : ∀ a, f a ≠ .error .gridMismatch) :
    ∀ l : List α, l.mapM f ≠ .error .gridMismatch := by
  intro l
  induction l with
  | nil => intro hc; exact Except.noConfusion hc
  | cons a l ih =>
    rw [List.mapM_cons]
    exact bind_no_gridMismatch _ _ (hf a)
      (fun x => bind_no_gridMismatch _ _ ih
        (fun xs hc => Except.noConfusion hc))

lemma pixelStep_no_gridMismatch (rt nt st qt : List ℚ) (i : ℕ) :
    pixelStep rt nt st qt i ≠ .error .gridMismatch := by
  unfold pixelStep
  refine bind_no_gridMismatch _ _ (subscript_no_gridMismatch qt i) (fun q => ?_)
  by_cases h1 : q ∈ bqa_values
  · rw [if_pos h1]
    exact fun hc => Except.noConfusion hc
  · rw [if_neg h1]
    refine bind_no_gridMismatch _ _ (subscript_no_gridMismatch st i) (fun s => ?_)
    by_cases h2 : s < 1/10
    · rw [if_pos h2]
      exact fun hc => Except.noConfusion hc
    · rw [if_neg h2]
      refine bind_no_gridMismatch _ _ (subscript_no_gridMismatch nt i)
        (fun n => ?_)
      refine bind_no_gridMismatch _ _ (subscript_no_gridMismatch rt i)
        (fun r => ?_)
      exact ite_pure_no_gridMismatch (n + r = 0) 0 ((n - r) / (n + r))

lemma processLine_no_gridMismatch (red nir b6 bqa : Band) (line : ℕ) :
    processLine red nir b6 bqa line ≠ .error .gridMismatch := by
  unfold processLine
  refine bind_no_gridMismatch _ _ (scanline_no_gridMismatch red line)
    (fun rt => ?_)
  refine bind_no_gridMismatch _ _ (scanline_no_gridMismatch nir line)
    (fun nt => ?_)
  refine bind_no_gridMismatch _ _ (scanline_no_gridMismatch b6 line)
    (fun st => ?_)
  refine bind_no_gridMismatch _ _ (scanline_no_gridMismatch bqa line)
    (fun qt => ?_)
  exact mapM_no_gridMismatch _ (fun i => pixelStep_no_gridMismatch rt nt st qt i) _

lemma makeNdviCore_no_gridMismatch (b4 b5 b6 bqa : Band) :
    makeNdviCore b4 b5 b6 bqa ≠ .error .gridMismatch := by
  unfold makeNdviCore
  refine bind_no_gridMismatch _ _
    (mapM_no_gridMismatch _ (fun line => processLine_no_gridMismatch b4 b5 b6 bqa line) _)
    (fun rows hc => Except.noConfusion hc)

lemma subscript_eval (t : List ℚ) (i : ℕ) (v : ℚ) (h : t.get? i = some v) :
    subscript t i = .ok v := by
  unfold subscript
  rw [h]

lemma scanline_eval (b : Band) (line : ℕ) (row : List ℚ)
    (h : b.data.get? line = some row) :
    scanline b line = .ok row := by
  unfold scanline
  rw [h]

/-- The loop body agrees with `ndviPixel` whenever all four samples are in
range. -/
lemma pixelStep_eq_ndviPixel (rt nt st qt : List ℚ) (i : ℕ) (r n s q : ℚ)
    (hr : rt.get? i = some r) (hn : nt.get? i = some n)
    (hs : st.get? i = some s) (hq : qt.get? i = some q) :
    pixelStep rt nt st qt i = .ok (ndviPixel r n s q) := by
  unfold pixelStep
  rw [subscript_eval qt i q hq]
  simp only [except_ok_bind]
  unfold ndviPixel
  by_cases h1 : q ∈ bqa_values
  · rw [if_pos h1, if_pos h1, except_pure_eq_ok]
  · rw [if_neg h1, if_neg h1, subscript_eval st i s hs]
    simp only [except_ok_bind]
    by_cases h2 : s < 1/10
    · rw [if_pos h2, if_pos h2, except_pure_eq_ok]
    · rw [if_neg h2, if_neg h2, subscript_eval nt i n hn]
      simp only [except_ok_bind]
      rw [subscript_eval rt i r hr]
      simp only [except_ok_bind]
      show (if n + r = 0 then (pure 0 : Except PyError ℚ)
          else pure ((n - r) / (n + r))) =
        .ok (if n + r = 0 then (0:ℚ) else (n - r) / (n + r))
      by_cases h3 : n + r = 0
      · rw [if_pos h3, if_pos h3, except_pure_eq_ok]
      · rw [if_neg h3, if_neg h3, except_pure_eq_ok]

lemma mm_ndvi_eval : ndviPixel 2 3 1 0 = 1/5 := by
  unfold ndviPixel
  rw [if_neg (by decide : ¬ (0:ℚ) ∈ bqa_values),
    if_neg (by norm_num : ¬ (1:ℚ) < 1/10)]
  show (if (3:ℚ) + 2 = 0 then (0:ℚ) else (3 - 2) / (3 + 2)) = 1/5
  rw [if_neg (by norm_num : ¬ (3:ℚ) + 2 = 0)]
  norm_num

lemma mm_line_eval : processLine mmB4 mmB5 mmB6 mmBqa 0 = .ok [1/5] := by
  unfold processLine
  rw [scanline_eval mmB4 0 [2] rfl]
  simp only [except_ok_bind]
  rw [scanline_eval mmB5 0 [3, 5] rfl]
  simp only [except_ok_bind]
  rw [scanline_eval mmB6 0 [1] rfl]
  simp only [except_ok_bind]
  rw [scanline_eval mmBqa 0 [0] rfl]
  simp only [except_ok_bind]
  rw [show List.range ([(2:ℚ)]).length = [0] from rfl, List.mapM_cons,
    pixelStep_eq_ndviPixel [2] [3, 5] [1] [0] 0 2 3 1 0 rfl rfl rfl rfl,
    mm_ndvi_eval]
  rfl

lemma mm_core_eval : makeNdviCore mmB4 mmB5 mmB6 mmBqa = .ok mmOut := by
  unfold makeNdviCore
  rw [show List.range mmB4.ysize = [0] from rfl, List.mapM_cons, mm_line_eval]
  rfl

/-- C5 counterexample: the four bands do not share grid dimensions (the B5
band is 2 pixels wide, the others 1), yet `make_ndvi` does not fail at all —
in particular not with any grid-mismatch error: it completes, silently
ignoring the extra B5 column. -/
theorem make_ndvi_no_gridcheck_counterexample :
    mmB5.xsize ≠ mmB4.xsize ∧
    make_ndvi (some mmB4) (some mmB5) (some mmB6) (some mmBqa) =
      .ok (some mmOut) := by
  constructor
  · decide
  · show (makeNdviCore mmB4 mmB5 mmB6 mmBqa).map some = .ok (some mmOut)
    rw [mm_core_eval]
    rfl

/-- C5 as the code has it: `make_ndvi` never fails with a grid-mismatch
error whatever the four bands' dimensions, and whenever it completes the
output raster inherits its geotransform, projection and sizes from the B4
(red) band dataset. -/
theorem make_ndvi_metadata_no_gridcheck (b4 b5 b6 bqa : Band) :
    makeNdviCore b4 b5 b6 bqa ≠ .error .gridMismatch ∧
    ∀ out : IndexRaster, makeNdviCore b4 b5 b6 bqa = .ok out →
      out.gt = b4.gt ∧ out.proj = b4.proj ∧
      out.xsize = b4.xsize ∧ out.ysize = b4.ysize := by
  refine ⟨makeNdviCore_no_gridMismatch b4 b5 b6 bqa, fun out h => ?_⟩
  unfold makeNdviCore at h
  cases hr : (List.range b4.ysize).mapM (processLine b4 b5 b6 bqa) with
  | error e =>
    rw [hr, except_error_bind] at h
    exact Except.noConfusion h
  | ok rows =>
    rw [hr, except_ok_bind, except_pure_eq_ok] at h
    have h2 : IndexRaster.mk b4.xsize b4.ysize b4.gt b4.proj rows = out :=
      Except.ok.inj h
    rw [← h2]
    exact ⟨rfl, rfl, rfl, rfl⟩

/-- Witness for the amended C5 at the concrete mismatched bands. -/
theorem make_ndvi_metadata_no_gridcheck_witness :
    mmOut.gt = mmB4.gt ∧ mmOut.proj = mmB4.proj ∧
    mmOut.xsize = mmB4.xsize ∧ mmOut.ysize = mmB4.ysize :=
  (make_ndvi_metadata_no_gridcheck mmB4 mmB5 mmB6 mmBqa).2 mmOut mm_core_eval

/-- C10: when any of the four datasets cannot be opened (`gdal.Open`
returned `None`), `make_ndvi` reports the condition and returns normally:
no error is raised and no output index raster is created. -/
theorem make_ndvi_missing_input (b4 b5 b6 bqa : Option Band)
    (h : b4 = none ∨ b5 = none ∨ b6 = none ∨ bqa = none) :
    make_ndvi b4 b5 b6 bqa = .ok none := by
  rcases h with h | h | h | h
  · subst h; cases b5 <;> cases b6 <;> cases bqa <;> rfl
  · subst h; cases b4 <;> cases b6 <;> cases bqa <;> rfl
  · subst h; cases b4 <;> cases b5 <;> cases bqa <;> rfl
  · subst h; cases b4 <;> cases b5 <;> cases b6 <;> rfl

/-- Witness for C10: the B4 dataset fails to open. -/
theorem make_ndvi_missing_input_witness :
    make_ndvi none (some mmB5) (some mmB6) (some mmBqa) = .ok none :=
  make_ndvi_missing_input none (some mmB5) (some mmB6) (some mmBqa) (Or.inl rfl)
